import Mathlib

/-!
Verification of the etk extraction engine against its specification.

The engine code (class ETK in etk/etk.py) is embedded directly: the
error-policy selection of the constructor, the jsonpath compilation cache
of parse_json_path, the module loop of process_ems, and the
topological_sort stub.  Mutable attributes become explicit state values,
raised exceptions become Except values, and the Python dict self.parsed
becomes an association list whose lookup finds the most recent binding.

The tokenizer itself (etk/tokenizer.py) is not part of the sources, only
its unit test is; its model below is built from the specification.
-/

namespace Etk

/-- A token as exposed by the tokenizer: exact substring, start offset
into the original text, and the per-character shape signature. -/
structure Token where
  orth : List Char
  idx : Nat
  full_shape : List Char
deriving DecidableEq

/-- Modelled from the spec: per-character shape classification of the
tokenizer (letter to x, digit to d, punctuation and space kept as is). -/
def charShape (c : Char) : Char :=
  if c.isAlpha then 'x' else if c.isDigit then 'd' else c

/-- Modelled from the spec: the shape of a token text is the concatenation
of the per-character classes, with no collapsing of repeats. -/
def shapeOf (s : List Char) : List Char :=
  s.map charShape

/-- Modelled from the spec: the boundary rule of the upstream token
provider.  Given the first character of a token, it returns the predicate
that the remaining characters of the same run must satisfy: whitespace
runs stay together (the gap re-insertion of the tokenizer), letter runs
stay together, digit runs may contain a decimal point, and any other
character is a token by itself. -/
def runPredicate (c : Char) : Char → Bool :=
  if c.isWhitespace then fun d => d.isWhitespace
  else if c.isAlpha then fun d => d.isAlpha
  else if c.isDigit then fun d => d.isDigit || d = '.'
  else fun _ => false

/-- Modelled from the spec: split the character list into maximal runs,
emitting one token per run with its offset and shape.  The first argument
is fuel; one character at least is consumed per step, so the length of
the list is always enough fuel. -/
def tokenizeAux : Nat → Nat → List Char → List Token
  | 0, _, _ => []
  | _ + 1, _, [] => []
  | fuel + 1, off, c :: cs =>
    let p := runPredicate c
    let run := c :: cs.takeWhile p
    { orth := run, idx := off, full_shape := shapeOf run } ::
      tokenizeAux fuel (off + run.length) (cs.dropWhile p)

/-- Modelled from the spec: tokenize(text) of the Tokenizer, producing an
ordered finite sequence of tokens whose texts cover the whole input,
whitespace runs included. -/
def tokenize (s : String) : List Token :=
  tokenizeAux s.data.length 0 s.data

/-- reconstruct_text of the Tokenizer: the pure fold concatenating the
text fields of the tokens in their given order. -/
def reconstruct_text (tokens : List Token) : String :=
  String.mk ((tokens.map Token.orth).flatten)

/-- The error-policy values of etk/etk_exceptions.py used by ETK. -/
inductive ErrorPolicy
  | PROCESS
  | THROW_EXTRACTION
  | THROW_DOCUMENT
  | RAISE
deriving DecidableEq

/-- The Python str.lower() call on the selector string: every character
lowercased (ASCII range, matching the selector strings involved). -/
def pyLower (s : String) : String :=
  String.mk (s.data.map Char.toLower)

/-- The error-policy selection in ETK.__init__, statement by statement:
three if statements assigning self.error_policy, where only the last one
carries an else branch.  The running value of the attribute is threaded
through explicitly; none means the attribute is still unset. -/
def setErrorPolicy (extract_error_policy : String) : Option ErrorPolicy :=
  let l := pyLower extract_error_policy
  let st0 : Option ErrorPolicy := none
  let st1 := if l = "throw_extraction" then some ErrorPolicy.THROW_EXTRACTION else st0
  let st2 := if l = "throw_document" then some ErrorPolicy.THROW_DOCUMENT else st1
  let st3 := if l = "raise_error" then some ErrorPolicy.RAISE
             else some ErrorPolicy.PROCESS
  st3

/-- The exceptions ETK methods can raise, plus the Python AttributeError
produced by reading an attribute that was never assigned. -/
inductive EtkError
  | InvalidJsonPathError
  | AttributeError
  | NotGetETKModuleError
deriving DecidableEq

/-- The state of an ETK instance relevant to parse_json_path: the
jsonpath_ng.parse collaborator (deterministic, failing on invalid path
strings) and the self.parsed cache dict. -/
structure ETKState (C : Type) where
  parser : String → Option C
  parsed : List (String × C)

/-- ETK.parse_json_path: if the string is not cached, parse it and cache
the result, raising InvalidJsonPathError when parsing fails (the failed
string is not cached); finally return the cached value. -/
def parse_json_path {C : Type} (st : ETKState C) (jsonpath : String) :
    Except EtkError C × ETKState C :=
  match st.parsed.lookup jsonpath with
  | some v => (Except.ok v, st)
  | none =>
    match st.parser jsonpath with
    | some v => (Except.ok v, { st with parsed := (jsonpath, v) :: st.parsed })
    | none => (Except.error EtkError.InvalidJsonPathError, st)

/-- An extraction module, per the ETKModule contract: an applicability
predicate and a document-processing step.  Document mutation is modelled
as a function from documents to documents. -/
structure ETKModule (D : Type) where
  document_selector : D → Bool
  process_document : D → D

/-- ETK.process_ems: iterate the module list in order, calling
process_document exactly on the modules whose document_selector accepts
the current document, then return the pair of the document and its
knowledge graph (kg is the attribute projection of Document). -/
def process_ems {D K : Type} (kg : D → K) (em_lst : List (ETKModule D)) (doc : D) :
    D × K :=
  let d := em_lst.foldl
    (fun d em => if em.document_selector d then em.process_document d else d) doc
  (d, kg d)

/-- The modules argument of ETK.__init__ relevant here: None (the
default) or an ETKModule subclass.  The string variant triggers directory
loading, an external collaborator outside this embedding. -/
inductive ModulesArg (D : Type)
  | noneArg
  | moduleClass (em : ETKModule D)

/-- The em_lst attribute after ETK.__init__: the assignment is guarded by
the truthiness test on modules, so with modules=None the attribute is
never assigned (none); an ETKModule subclass is instantiated into a
one-element list. -/
def init_em_lst {D : Type} : ModulesArg D → Option (List (ETKModule D))
  | ModulesArg.noneArg => none
  | ModulesArg.moduleClass em => some [em]

/-- ETK.__init__: the em_lst attribute (possibly unset) and the
error_policy attribute resulting from construction. -/
def etk_init {D : Type} (modules : ModulesArg D) (extract_error_policy : String) :
    Option (List (ETKModule D)) × Option ErrorPolicy :=
  (init_em_lst modules, setErrorPolicy extract_error_policy)

/-- Calling process_ems through the engine state: reading self.em_lst
when the attribute was never assigned raises AttributeError. -/
def process_ems_checked {D K : Type} (kg : D → K)
    (em_lst : Option (List (ETKModule D))) (doc : D) : Except EtkError (D × K) :=
  match em_lst with
  | none => Except.error EtkError.AttributeError
  | some lst => Except.ok (process_ems kg lst doc)

/-- ETK.topological_sort, exactly as in the source: the body is the
string literal TODO followed by returning the input list unchanged. -/
def topological_sort {M : Type} (lst : List M) : List M :=
  lst

/-- A module carrying a name and declared dependencies (names of modules
it depends on), to state ordering properties of topological_sort.
Modelled from the spec, which says modules may declare dependence on the
outputs of other modules. -/
structure DepModule where
  name : String
  deps : List String
deriving DecidableEq

/-- Example state for witnesses: a parser that rejects every string. -/
def failState : ETKState Unit :=
  ETKState.mk (fun _ => none) []

/-- Example state for witnesses: a parser that compiles every string
to the value 7. -/
def okState : ETKState Nat :=
  ETKState.mk (fun _ => some 7) []

/- ------------------------------------------------------------------ -/
/- Helper lemmas -/
/- ------------------------------------------------------------------ -/

theorem length_dropWhile_le_self (p : Char → Bool) :
    ∀ l : List Char, (l.dropWhile p).length ≤ l.length := by
  intro l
  induction l with
  | nil => simp [List.dropWhile]
  | cons c cs ih =>
    simp only [List.dropWhile]
    cases p c with
    | true => exact Nat.le_succ_of_le ih
    | false => exact Nat.le_refl _

theorem tokenizeAux_join (fuel : Nat) :
    ∀ (off : Nat) (l : List Char), l.length ≤ fuel →
      ((tokenizeAux fuel off l).map Token.orth).flatten = l := by
  induction fuel with
  | zero =>
    intro off l h
    have hl : l = [] := List.eq_nil_of_length_eq_zero (Nat.le_zero.mp h)
    subst hl
    simp [tokenizeAux]
  | succ n ih =>
    intro off l h
    cases l with
    | nil => simp [tokenizeAux]
    | cons c cs =>
      have hcs : cs.length ≤ n := Nat.le_of_succ_le_succ h
      have hdrop : ((cs.dropWhile (runPredicate c)).length) ≤ n :=
        Nat.le_trans (length_dropWhile_le_self _ cs) hcs
      simp only [tokenizeAux, List.map_cons, List.flatten_cons]
      rw [ih _ _ hdrop]
      simp only [List.cons_append]
      rw [List.takeWhile_append_dropWhile]

/- ------------------------------------------------------------------ -/
/- Claim theorems -/
/- ------------------------------------------------------------------ -/

/-- Claim C1: for every input text, including the empty string and
whitespace-only strings, reconstruct_text applied to the token sequence
produced by tokenize yields exactly the input text. -/
theorem reconstruct_tokenize_roundtrip (s : String) :
    reconstruct_text (tokenize s) = s := by
  unfold reconstruct_text tokenize
  rw [tokenizeAux_join s.data.length 0 s.data (Nat.le_refl _)]

/-- Witness for C1 at the concrete inputs given by the claim: the empty
string and a whitespace-only string. -/
theorem reconstruct_tokenize_roundtrip_witness :
    reconstruct_text (tokenize "") = "" ∧
    reconstruct_text (tokenize " \n  ") = " \n  " :=
  ⟨reconstruct_tokenize_roundtrip "", reconstruct_tokenize_roundtrip " \n  "⟩

/-- Counterexample to claim C2: constructing ETK with the selector
string throw_extraction does not configure THROW_EXTRACTION; the
unconditional else of the last if statement overwrites it with PROCESS. -/
theorem setErrorPolicy_throw_extraction_overridden :
    setErrorPolicy "throw_extraction" = some ErrorPolicy.PROCESS ∧
    setErrorPolicy "throw_extraction" ≠ some ErrorPolicy.THROW_EXTRACTION := by
  exact ⟨rfl, by decide⟩

/-- Claim C2 (amended): the configured policy is RAISE when the selector
string lowercases to raise_error and PROCESS for every other string,
including throw_extraction and throw_document, because the else branch
attached to the final if statement overwrites the earlier assignments. -/
theorem setErrorPolicy_spec (s : String) :
    setErrorPolicy s =
      some (if pyLower s = "raise_error" then ErrorPolicy.RAISE
            else ErrorPolicy.PROCESS) := by
  by_cases h : pyLower s = "raise_error" <;> simp [setErrorPolicy, h]

/-- Claim C3 (code made explicit): topological_sort is a pass-through
stub.  It returns every module list unchanged, so a module registered
before its dependency still executes first, and a dependency cycle is
returned unchanged instead of causing a configuration error. -/
theorem topological_sort_is_stub :
    (∀ (M : Type) (lst : List M), topological_sort lst = lst) ∧
    topological_sort [DepModule.mk "M2" ["M1"], DepModule.mk "M1" []] =
      [DepModule.mk "M2" ["M1"], DepModule.mk "M1" []] ∧
    topological_sort [DepModule.mk "A" ["B"], DepModule.mk "B" ["A"]] =
      [DepModule.mk "A" ["B"], DepModule.mk "B" ["A"]] :=
  ⟨fun _ _ => rfl, rfl, rfl⟩

/-- Claim C4: for an invalid path string (the parser fails on it) that is
not in the cache, parse_json_path raises InvalidJsonPathError and leaves
the state unchanged, and the immediately repeated call on the resulting
state raises the very same error again. -/
theorem parse_json_path_invalid_always_raises {C : Type} (st : ETKState C)
    (jp : String) (hp : st.parser jp = none) (hc : st.parsed.lookup jp = none) :
    parse_json_path st jp = (Except.error EtkError.InvalidJsonPathError, st) ∧
    parse_json_path (parse_json_path st jp).2 jp =
      (Except.error EtkError.InvalidJsonPathError, st) := by
  have h1 : parse_json_path st jp =
      (Except.error EtkError.InvalidJsonPathError, st) := by
    simp [parse_json_path, hc, hp]
  exact ⟨h1, by rw [h1]; exact h1⟩

/-- Witness for C4: a parser rejecting everything, the empty cache, and
the concrete invalid string consisting of one opening bracket. -/
theorem parse_json_path_invalid_always_raises_witness :
    parse_json_path failState "[" =
      (Except.error EtkError.InvalidJsonPathError, failState) ∧
    parse_json_path (parse_json_path failState "[").2 "[" =
      (Except.error EtkError.InvalidJsonPathError, failState) :=
  parse_json_path_invalid_always_raises failState "[" rfl rfl

/-- Claim C5: on the first successful compilation of a string the
compiled value is returned and cached under that exact string, and every
later call with the same string returns the cached value without
consulting the parser at all: the second call succeeds with the same
value even if the parser is replaced by an arbitrary one. -/
theorem parse_json_path_caches {C : Type} (st : ETKState C) (jp : String)
    (v : C) (hp : st.parser jp = some v) (hc : st.parsed.lookup jp = none) :
    (parse_json_path st jp).1 = Except.ok v ∧
    (∀ parser2 : String → Option C,
      parse_json_path (ETKState.mk parser2 (parse_json_path st jp).2.parsed) jp =
        (Except.ok v, ETKState.mk parser2 (parse_json_path st jp).2.parsed)) := by
  have h1 : parse_json_path st jp =
      (Except.ok v, ETKState.mk st.parser ((jp, v) :: st.parsed)) := by
    simp [parse_json_path, hc, hp]
  constructor
  · rw [h1]
  · intro parser2
    rw [h1]
    simp [parse_json_path, List.lookup]

/-- Witness for C5: a parser compiling everything to 7, the empty cache,
and a second call whose parser rejects everything yet still returns the
cached value. -/
theorem parse_json_path_caches_witness :
    (parse_json_path okState "$.a").1 = Except.ok 7 ∧
    parse_json_path
        (ETKState.mk (fun _ => none) (parse_json_path okState "$.a").2.parsed)
        "$.a" =
      (Except.ok 7,
        ETKState.mk (fun _ => none) (parse_json_path okState "$.a").2.parsed) :=
  ⟨(parse_json_path_caches okState "$.a" 7 rfl rfl).1,
   (parse_json_path_caches okState "$.a" 7 rfl rfl).2 (fun _ => none)⟩

/-- Claim C6: tokenizing the text 32.4 -32.1 yields exactly four tokens
with shapes dd.d, space, hyphen, dd.d at offsets 0, 4, 5 and 6, and
reconstruct_text recovers the text exactly. -/
theorem tokenize_number_example :
    tokenize "32.4 -32.1" =
      [Token.mk "32.4".data 0 "dd.d".data,
       Token.mk " ".data 4 " ".data,
       Token.mk "-".data 5 "-".data,
       Token.mk "32.1".data 6 "dd.d".data] ∧
    reconstruct_text (tokenize "32.4 -32.1") = "32.4 -32.1" := by
  exact ⟨rfl, rfl⟩

/-- Claim C7: for every input text, concatenating the text fields of the
tokens returned by tokenize, in their given order, is exactly the
character sequence of the input; whitespace runs the upstream boundary
rule groups are emitted as explicit whitespace tokens, so no character of
the input is absent from the token texts. -/
theorem tokenize_concat_orth (s : String) :
    ((tokenize s).map Token.orth).flatten = s.data :=
  tokenizeAux_join s.data.length 0 s.data (Nat.le_refl _)

/-- Claim C8: process_ems handles the module list in order; on the empty
list the document is untouched, on a cons cell the head module is applied
exactly when its document_selector accepts the current document and the
tail is processed on the result, and the returned pair is always the
final document together with its kg attribute. -/
theorem process_ems_spec :
    (∀ (D K : Type) (kg : D → K) (doc : D),
      process_ems kg [] doc = (doc, kg doc)) ∧
    (∀ (D K : Type) (kg : D → K) (em : ETKModule D) (lst : List (ETKModule D))
       (doc : D),
      process_ems kg (em :: lst) doc =
        process_ems kg lst
          (if em.document_selector doc then em.process_document doc else doc)) ∧
    (∀ (D K : Type) (kg : D → K) (lst : List (ETKModule D)) (doc : D),
      (process_ems kg lst doc).2 = kg (process_ems kg lst doc).1) :=
  ⟨fun _ _ _ _ => rfl, fun _ _ _ _ _ _ => rfl, fun _ _ _ _ _ => rfl⟩

/-- Claim C9: when the queried string is not cached, a parse failure
raises InvalidJsonPathError with the cache left exactly as it was, and a
parse success prepends exactly the one entry for that string to the
cache. -/
theorem parse_json_path_cache_discipline {C : Type} (st : ETKState C)
    (jp : String) (hc : st.parsed.lookup jp = none) :
    (st.parser jp = none →
      parse_json_path st jp = (Except.error EtkError.InvalidJsonPathError, st)) ∧
    (∀ v, st.parser jp = some v →
      (parse_json_path st jp).2.parsed = (jp, v) :: st.parsed) := by
  constructor
  · intro hp
    simp [parse_json_path, hc, hp]
  · intro v hp
    simp [parse_json_path, hc, hp]

/-- Witness for C9: the failing parser on the empty cache leaves the
state untouched while raising, and the succeeding parser adds exactly the
one entry. -/
theorem parse_json_path_cache_discipline_witness :
    parse_json_path failState "x" =
      (Except.error EtkError.InvalidJsonPathError, failState) ∧
    (parse_json_path okState "x").2.parsed = [("x", 7)] :=
  ⟨(parse_json_path_cache_discipline failState "x" rfl).1 rfl,
   (parse_json_path_cache_discipline okState "x" rfl).2 7 rfl⟩

/-- Claim C10: constructing ETK with modules set to None succeeds but
leaves the em_lst attribute unassigned, so a subsequent process_ems call
on such an engine fails with AttributeError instead of processing the
document with zero modules. -/
theorem init_none_process_ems_attribute_error :
    (∀ (D : Type) (policy : String),
      (etk_init (ModulesArg.noneArg : ModulesArg D) policy).1 = none) ∧
    (∀ (D K : Type) (kg : D → K) (policy : String) (doc : D),
      process_ems_checked kg (etk_init (ModulesArg.noneArg : ModulesArg D) policy).1
          doc =
        Except.error EtkError.AttributeError) :=
  ⟨fun _ _ => rfl, fun _ _ _ _ _ => rfl⟩

end Etk
